import Mathlib

/-!
Verification of the scad session-orchestration subsystem (src/scad/config.py,
src/scad/container.py, src/scad/cli.py) against its specification.

The development is a shallow embedding: the Python functions the claims talk
about are translated into executable Lean definitions.  Filesystem and Docker
state are modelled explicitly (lists of containers, run directories, images,
and per-run event-log contents); `git branch --list` is modelled as exact
membership of a branch name in the per-repository branch list; path
resolution (`Path.expanduser().resolve()`) is modelled as the identity on
path strings.  Python `str.split()` / `str.startswith` / `str.split(sep, 1)`
are modelled character-exactly on `List Char`.
-/

namespace Scad

/-- Python `s.startswith(pre)`, modelled character-exactly on `String.data`. -/
def pyStartsWith (pre s : String) : Bool :=
  s.data.take pre.data.length == pre.data

/-- Words of a character list in the sense of Python `str.split()` with no
arguments: split on whitespace runs, discarding empty fragments. -/
def pyWordsData (l : List Char) : List (List Char) :=
  (l.splitOnP (fun c => c.isWhitespace)).filter (fun w => !w.isEmpty)

/-- Python `line.split()` on a string. -/
def pyWords (s : String) : List String :=
  (pyWordsData s.data).map String.mk

/-- Python `p.split(sep, 1)[1]` for a one-character separator: everything
after the first occurrence.  Call sites in the source guard with
`startswith`, so the separator is always present there; on a string without
the separator this model returns the empty string. -/
def afterFirstChar (sep : Char) (p : String) : String :=
  String.mk ((p.data.dropWhile (fun c => c != sep)).tail)

/-- Lines of a text-file content that consists of newline-terminated
records, as a list of character lists (the final fragment after the last
newline, which is empty for well-formed event logs, is dropped). -/
def splitLines (content : List Char) : List (List Char) :=
  (content.splitOnP (fun c => c == '\n')).dropLast

/-- Content of a text file made of the given newline-terminated lines. -/
def joinedLines (ls : List (List Char)) : List Char :=
  (ls.map (fun l => l ++ ['\n'])).flatten

/-! ### Configuration model (config.py) -/

/-- RepoConfig from config.py: one repository entry of a configuration. -/
structure RepoConfig where
  path : String
  workdir : Bool := false
  add_dir : Bool := false
  worktree : Bool := true
  focus : Option String := none
deriving DecidableEq

/-- MountConfig from config.py. -/
structure MountConfig where
  host : String
  container : String
deriving DecidableEq

/-- PythonConfig from config.py. -/
structure PythonConfig where
  version : String := "3.11"
  requirements : Option String := none
deriving DecidableEq

/-- ScadConfig from config.py.  `repos` is the insertion-ordered dict
`repoKey -> RepoConfig`; the `claude` sub-config is omitted because no claim
mentions it. -/
structure ScadConfig where
  name : String
  repos : List (String × RepoConfig)
  mounts : List MountConfig := []
  apt_packages : List String := []
  python : PythonConfig := {}
deriving DecidableEq

/-- Number of repos of a configuration marked `workdir=true`
(`[k for k, v in self.repos.items() if v.workdir]` in
`ScadConfig.validate_workdir`). -/
def workdirCount (repos : List (String × RepoConfig)) : Nat :=
  (repos.filter (fun kv => kv.2.workdir)).length

/-- Errors surfaced by the config store. -/
inductive ConfigError where
  | notFound
  | invalid
deriving DecidableEq

/-- The pydantic `model_validator` `ScadConfig.validate_workdir`: accepts the
configuration exactly when the number of workdir repos is one. -/
def validate_workdir (c : ScadConfig) : Except ConfigError ScadConfig :=
  if workdirCount c.repos = 1 then .ok c else .error .invalid

/-- `load_config` from config.py.  `store` models the parsed contents of the
config directory (`none` = no such file); constructing `ScadConfig(**raw)`
runs the pydantic validator. -/
def load_config (store : String → Option ScadConfig) (name : String) :
    Except ConfigError ScadConfig :=
  match store name with
  | none => .error .notFound
  | some raw => validate_workdir raw

/-! ### Branch resolution (container.py `resolve_branch`) -/

/-- Decimal rendering of a natural number, as Python `str(suffix)` renders
the collision suffix in `f"[base]-[suffix]"`.  `natDecAux fuel n` is the
little-endian digit list of `n` (for `n ≤ fuel`). -/
def natDecAux : Nat → Nat → List Char
  | 0, _ => []
  | fuel + 1, n => if n = 0 then [] else Char.ofNat (48 + n % 10) :: natDecAux fuel (n / 10)

/-- Decimal string of a natural number. -/
def natDec (n : Nat) : String :=
  if n = 0 then "0" else String.mk (natDecAux n n).reverse

/-- Value of a little-endian decimal digit-character list; used to show that
`natDec` is injective. -/
def valLE : List Char → Nat
  | [] => 0
  | c :: cs => (c.toNat - 48) + 10 * valLE cs

/-- `generate_branch_name` from container.py; the wall-clock components
`strftime("%b%d")` and `strftime("%H%M")` are parameters. -/
def generate_branch_name (configName tag mon hhmm : String) : String :=
  "scad-" ++ configName ++ "-" ++ tag ++ "-" ++ mon ++ "-" ++ hhmm

/-- The sequence of branch names tried by the collision loop of
`resolve_branch`: the generated base name, then `base-2`, `base-3`, ... -/
def branchCandidate (base : String) : Nat → String
  | 0 => base
  | k + 1 => base ++ "-" ++ natDec (k + 2)

/-- The collision test of `resolve_branch`:
`any(check_branch_exists(repo.resolved_path, branch) for repo in
config.repos.values() if repo.worktree)`.  `world` maps a repository path to
the list of branch names existing in it (`git branch --list` modelled as
exact membership). -/
def branch_collides (world : String → List String) (cfg : ScadConfig) (b : String) : Bool :=
  cfg.repos.any (fun kv => kv.2.worktree && decide (b ∈ world kv.2.path))

/-- All branch names existing in the participating (worktree=true) source
repos of a configuration. -/
def participating_branches (world : String → List String) (cfg : ScadConfig) : List String :=
  ((cfg.repos.filter (fun kv => kv.2.worktree)).map (fun kv => world kv.2.path)).flatten

/-- The `while any(...)` collision loop of `resolve_branch`, searching the
candidate sequence from index `k`.  The Python loop is unbounded; here it is
given fuel, and `exists_free_candidate` below shows that
`(participating_branches world cfg).length + 1` steps always reach a free
name, so the fuelled search agrees with the loop. -/
def searchFreeBranch (world : String → List String) (cfg : ScadConfig) (base : String) :
    Nat → Nat → String
  | 0, k => branchCandidate base k
  | fuel + 1, k =>
    if branch_collides world cfg (branchCandidate base k)
    then searchFreeBranch world cfg base fuel (k + 1)
    else branchCandidate base k

/-- `resolve_branch` from container.py: a user-specified branch that already
exists in a participating repo is rejected; `None` auto-generates
`scad-[config]-[tag]-[MonDD]-[HHMM]` and suffixes `-2`, `-3`, ... on
collision. -/
def resolve_branch (world : String → List String) (cfg : ScadConfig)
    (branch : Option String) (tag mon hhmm : String) : Except String String :=
  match branch with
  | none =>
    let base := generate_branch_name cfg.name tag mon hhmm
    .ok (searchFreeBranch world cfg base ((participating_branches world cfg).length + 1) 0)
  | some b =>
    if branch_collides world cfg b
    then .error "Branch already exists in a participating repo"
    else .ok b

/-! ### Credentials probe (container.py `check_claude_auth`) -/

/-- JSON values, as produced by `json.loads`. -/
inductive JVal where
  | null
  | bool (b : Bool)
  | num (q : ℚ)
  | str (s : String)
  | arr (xs : List JVal)
  | obj (kvs : List (String × JVal))

/-- State of the credentials file `~/.claude/.credentials.json`. -/
inductive CredsFile where
  | absent
  | notJson
  | json (v : JVal)

/-- Python exceptions that escape `check_claude_auth` (its `except` clause
catches only `json.JSONDecodeError` and `KeyError`). -/
inductive PyErr where
  | typeError
deriving DecidableEq

/-- Dict lookup `d[k]` on a JSON object (first binding wins). -/
def jLookup (kvs : List (String × JVal)) (k : String) : Option JVal :=
  (kvs.find? (fun kv => kv.1 == k)).map (fun kv => kv.2)

/-- `check_claude_auth` from container.py, with `time.time()` passed in as
`now` (seconds since epoch, exact arithmetic).  A missing file, unparseable
JSON, or a `KeyError` along `data["claudeAiOauth"]["expiresAt"]` yields
`(False, 0.0)`; subscripting a non-dict or dividing a non-number raises
`TypeError`, which the `except (json.JSONDecodeError, KeyError)` clause does
not catch.  Python `bool` is an `int` subclass, so a boolean `expiresAt`
divides fine. -/
def check_claude_auth (f : CredsFile) (now : ℚ) : Except PyErr (Bool × ℚ) :=
  match f with
  | .absent => .ok (false, 0)
  | .notJson => .ok (false, 0)
  | .json v =>
    match v with
    | .obj kvs =>
      match jLookup kvs "claudeAiOauth" with
      | none => .ok (false, 0)
      | some v1 =>
        match v1 with
        | .obj kvs2 =>
          match jLookup kvs2 "expiresAt" with
          | none => .ok (false, 0)
          | some v2 =>
            match v2 with
            | .num q =>
              let rem := (q / 1000 - now) / 3600
              .ok (decide (rem > 0), max rem 0)
            | .bool b =>
              let rem := ((if b then (1 : ℚ) else 0) / 1000 - now) / 3600
              .ok (decide (rem > 0), max rem 0)
            | _ => .error .typeError
        | _ => .error .typeError
    | _ => .error .typeError

/-- The credential-file shapes on which `check_claude_auth` takes one of its
`(False, 0.0)` early returns: missing file, unparseable JSON, or a dict in
which the path `claudeAiOauth.expiresAt` stops at a missing key. -/
def creds_path_missing : CredsFile → Bool
  | .absent => true
  | .notJson => true
  | .json (.obj kvs) =>
    match jLookup kvs "claudeAiOauth" with
    | none => true
    | some (.obj kvs2) =>
      match jLookup kvs2 "expiresAt" with
      | none => true
      | some _ => false
    | some _ => false
  | .json _ => false

/-- The credential-file shapes whose `claudeAiOauth.expiresAt` path exists
and ends in a number (or Python bool). -/
def creds_path_numeric : CredsFile → Bool
  | .json (.obj kvs) =>
    match jLookup kvs "claudeAiOauth" with
    | some (.obj kvs2) =>
      match jLookup kvs2 "expiresAt" with
      | some (.num _) => true
      | some (.bool _) => true
      | _ => false
    | _ => false
  | _ => false

/-! ### Session start orchestration (cli.py `session_start` / `run_agent`) -/

/-- The steps of a `session start` invocation that the spec names. -/
inductive StartStep where
  | load
  | resolveBranch
  | credsCheck
  | build
  | clones
  | runContainer
  | logStart
deriving DecidableEq

/-- Outcome of each step of a `session start` invocation (success of the
config load, of branch resolution, validity of credentials, success of the
image build stage, of clone creation, and of the container launch). -/
structure StartWorld where
  configOk : Bool
  branchOk : Bool
  credsValid : Bool
  buildOk : Bool
  clonesOk : Bool
  runOk : Bool
deriving DecidableEq

/-- Trace of the executed steps of `session_start` (cli.py lines 204-234)
and whether the invocation succeeded.  The control flow of the source is:
`load_config`; then inside `try`: `resolve_branch`, then `run_agent` (which
runs `check_claude_auth` first, then builds the image if needed, creates the
clones, and starts the container), then `log_event(run_id, "start", ...)`.
Each exception aborts the remaining steps. -/
def session_start_steps (w : StartWorld) : List StartStep × Bool :=
  if !w.configOk then ([.load], false)
  else if !w.branchOk then ([.load, .resolveBranch], false)
  else if !w.credsValid then ([.load, .resolveBranch, .credsCheck], false)
  else if !w.buildOk then ([.load, .resolveBranch, .credsCheck, .build], false)
  else if !w.clonesOk then ([.load, .resolveBranch, .credsCheck, .build, .clones], false)
  else if !w.runOk then
    ([.load, .resolveBranch, .credsCheck, .build, .clones, .runContainer], false)
  else ([.load, .resolveBranch, .credsCheck, .build, .clones, .runContainer, .logStart], true)

/-- The step order the claim states: credentials are checked before the
branch is resolved. -/
def claimedStartOrder : List StartStep :=
  [.load, .credsCheck, .resolveBranch, .build, .clones, .runContainer, .logStart]

/-- The step order of the code: branch resolution precedes the credentials
check. -/
def codeStartOrder : List StartStep :=
  [.load, .resolveBranch, .credsCheck, .build, .clones, .runContainer, .logStart]

/-! ### Session clean (cli.py `session_clean`, container.py `validate_run_id`,
`clean_run`) -/

/-- On-disk and runtime state relevant to one run ID: whether a container
named `scad-[runId]` exists, whether `runs/[runId]/` exists, and whether
`runs/[runId]/events.log` exists. -/
structure RunState where
  containerExists : Bool
  runDirExists : Bool
  eventsLogExists : Bool
deriving DecidableEq

/-- `validate_run_id` from container.py: raises `ClickException`
("No session found") when neither the run directory nor the container
exists. -/
def validate_run_id (st : RunState) : Except String Unit :=
  if !st.runDirExists && !st.containerExists then .error "No session found" else .ok ()

/-- `clean_run` from container.py: stop and remove the container if present
(missing container tolerated), then remove the whole run directory if
present (missing directory, and hence missing event log, tolerated). -/
def clean_run (_st : RunState) : RunState :=
  { containerExists := false, runDirExists := false, eventsLogExists := false }

/-- The single-run path of `session clean [runId]` (cli.py): it calls
`validate_run_id` first; `ClickException` makes click exit with code 1,
otherwise `clean_run` runs and the command exits 0.  Returns (exit code,
resulting state). -/
def session_clean (st : RunState) : Nat × RunState :=
  match validate_run_id st with
  | .error _ => (1, st)
  | .ok _ => (0, clean_run st)

/-! ### Garbage collection (container.py `gc`) -/

/-- A container known to the Docker daemon. -/
structure DContainer where
  name : String
  status : String
  imageId : String
  managed : Bool
deriving DecidableEq

/-- A run directory `runs/[runId]/`; `hasWorktrees` is
`worktrees.exists() and list(worktrees.iterdir())`. -/
structure RunDirEntry where
  runId : String
  hasWorktrees : Bool
deriving DecidableEq

/-- A Docker image. -/
structure DImage where
  id : String
  tags : List String
deriving DecidableEq

/-- The world `gc` observes and mutates. -/
structure DockerState where
  containers : List DContainer
  runDirs : List RunDirEntry
  images : List DImage
deriving DecidableEq

/-- The findings dict returned by `gc`. -/
structure GcFindings where
  orphaned_containers : List DContainer
  dead_run_dirs : List RunDirEntry
  unused_images : List DImage
deriving DecidableEq

/-- Python `container.name.removeprefix("scad-")`. -/
def removeScadPfx (n : String) : String :=
  if pyStartsWith "scad-" n then String.mk (n.data.drop 5) else n

/-- `run_dir.exists()` for `runs/[rid]`. -/
def run_dir_exists (dirs : List RunDirEntry) (rid : String) : Bool :=
  dirs.any (fun d => d.runId == rid)

/-- `_container_exists` from container.py: a container named `scad-[rid]`
exists. -/
def container_exists (cs : List DContainer) (rid : String) : Bool :=
  cs.any (fun c => c.name == "scad-" ++ rid)

/-- The orphan test of `gc`: run directory missing or runtime state
`exited`. -/
def is_orphan (dirs : List RunDirEntry) (c : DContainer) : Bool :=
  !(run_dir_exists dirs (removeScadPfx c.name)) || (c.status == "exited")

/-- The dead-run-dir test of `gc`: no container and no (non-empty)
worktrees subdirectory. -/
def is_dead_dir (cs : List DContainer) (d : RunDirEntry) : Bool :=
  !(container_exists cs d.runId) && !d.hasWorktrees

/-- `[t for t in (image.tags or []) if t.startswith("scad-")]`. -/
def scadTags (im : DImage) : List String :=
  im.tags.filter (fun t => pyStartsWith "scad-" t)

/-- The unused-image test of `gc`: carries a `scad-` tag and its ID is not
referenced by any managed container seen in the first pass. -/
def is_unused_image (activeIds : List String) (im : DImage) : Bool :=
  !(scadTags im).isEmpty && !(activeIds.contains im.id)

/-- `gc` from container.py.  Pass order is the source order: (1) iterate the
managed containers, collecting every managed container's image ID into
`active_image_ids` and flagging orphans (removed under `force`); (2) iterate
the run directories, flagging dead ones against the *post-removal* container
set (`_container_exists` queries the live daemon) and removing them under
`force`; (3) iterate the images, flagging `scad-`-tagged ones whose ID is
not in `active_image_ids` and removing them under `force`.  Best-effort
removals are modelled as succeeding. -/
def gc (force : Bool) (s : DockerState) : GcFindings × DockerState :=
  let managed := s.containers.filter (fun c => c.managed)
  let activeIds := managed.map (fun c => c.imageId)
  let orphans := managed.filter (is_orphan s.runDirs)
  let containers1 :=
    if force then s.containers.filter (fun c => !(c.managed && is_orphan s.runDirs c))
    else s.containers
  let dead := s.runDirs.filter (is_dead_dir containers1)
  let runDirs1 :=
    if force then s.runDirs.filter (fun d => !(is_dead_dir containers1 d)) else s.runDirs
  let unused := s.images.filter (is_unused_image activeIds)
  let images1 :=
    if force then s.images.filter (fun im => !(is_unused_image activeIds im)) else s.images
  ({ orphaned_containers := orphans, dead_run_dirs := dead, unused_images := unused },
   { containers := containers1, runDirs := runDirs1, images := images1 })

/-! ### Event log (container.py `log_event`, `_parse_events_log`,
`config_name_for_run`) -/

/-- The slice of `~/.scad` state that `log_event` touches: which run
directories exist, and the raw character content of each run's
`events.log` (`none` = file absent). -/
structure ScadFS where
  runDirs : List String
  events : String → Option (List Char)

/-- The line composed by `log_event`:
`f"[timestamp] [verb]"` plus `f" [details]"` when `details` is non-empty. -/
def renderEventLine (ts verb details : String) : String :=
  if details = "" then ts ++ " " ++ verb else ts ++ " " ++ verb ++ " " ++ details

/-- `log_event` from container.py, with the minute-precision timestamp
passed in: `run_dir.mkdir(parents=True, exist_ok=True)`, then append
`line + "\n"` to `events.log` (opening with mode `"a"` creates the file if
absent). -/
def log_event (fs : ScadFS) (runId verb details ts : String) : ScadFS :=
  { runDirs := if fs.runDirs.contains runId then fs.runDirs else runId :: fs.runDirs,
    events := fun r =>
      if r == runId then
        some (((fs.events runId).getD []) ++ (renderEventLine ts verb details).data ++ ['\n'])
      else fs.events r }

/-- The info dict assembled by `_parse_events_log`. -/
structure RunInfo where
  config : String
  branch : String
  started : String
deriving DecidableEq

/-- The token scan of `_parse_events_log` over `parts[2:]` of the first
`start` line: `config=`-tokens and `branch=`-tokens set the respective
fields via `p.split("=", 1)[1]`. -/
def scanDetailTokens (info : RunInfo) (tokens : List String) : RunInfo :=
  tokens.foldl
    (fun i p =>
      if pyStartsWith "config=" p then { i with config := afterFirstChar '=' p }
      else if pyStartsWith "branch=" p then { i with branch := afterFirstChar '=' p }
      else i)
    info

/-- `_parse_events_log` from container.py, over the lines of `events.log`:
find the first line whose second whitespace-token is `start`, take its first
token as `started` and scan the remaining tokens; a missing log or no
`start` line leaves the `"?"` defaults. -/
def parse_events_log : List String → RunInfo
  | [] => { config := "?", branch := "?", started := "" }
  | line :: rest =>
    let parts := pyWords line
    if parts.length ≥ 2 ∧ parts.getD 1 "" = "start" then
      scanDetailTokens
        { config := "?", branch := "?", started := parts.getD 0 "" } (parts.drop 2)
    else parse_events_log rest

/-- `config_name_for_run` from container.py, over the lines of the run's
`events.log`: the parsed config when it is neither empty nor `"?"`
(Python truthiness plus the explicit `!= "?"` check), else the first
dash-segment of the run ID when it has at least four segments, else
`None`. -/
def config_name_for_run (lines : List String) (runId : String) : Option String :=
  let info := parse_events_log lines
  if info.config ≠ "" ∧ info.config ≠ "?" then some info.config
  else
    let parts := (runId.data.splitOnP (fun c => c == '-')).map String.mk
    if parts.length ≥ 4 then some (parts.getD 0 "") else none

/-! ### Config store CLI exits (cli.py `config_add` / `config_remove` /
`config_new`) -/

/-- An entry `configs/[name].yml` of the store: a symlink with a target, or
a regular file. -/
structure StoreEntry where
  isSymlink : Bool
  target : String
deriving DecidableEq

/-- Exit code of `config add [path]` (cli.py lines 286-309): an unparseable
or invalid config exits 2 (the same pydantic validation as `load_config`
runs, via `ScadConfig(**raw)`); an existing entry exits 0 when it is a
symlink to the same file and 1 otherwise; otherwise the symlink is created
and the command exits 0.  `raw` is the parsed content of the pointed-to file
(`none` = not valid YAML/schema). -/
def config_add (store : String → Option StoreEntry) (raw : Option ScadConfig)
    (srcPath : String) : Nat :=
  match raw with
  | none => 2
  | some r =>
    match validate_workdir r with
    | .error _ => 2
    | .ok cfg =>
      match store cfg.name with
      | some entry => if entry.isSymlink && (entry.target == srcPath) then 0 else 1
      | none => 0

/-- Exit code of `config remove [name]` (cli.py lines 312-327): missing
entry exits 1, otherwise the entry is unlinked and the command exits 0.
`store` tells which names are present. -/
def config_remove (store : String → Bool) (name : String) : Nat :=
  if store name then 0 else 1

/-- Exit code of `config new [name]` (cli.py lines 330-349): an existing
entry exits 1, otherwise the template is written and the command exits 0. -/
def config_new (store : String → Bool) (name : String) : Nat :=
  if store name then 1 else 0

/-! ### Concrete fixtures used by witnesses and counterexamples -/

/-- A one-repo configuration: the single repo is the workdir repo and is
cloned per run. -/
def repo0 : RepoConfig :=
  { path := "/r", workdir := true }

/-- A valid sample configuration. -/
def cfg0 : ScadConfig :=
  { name := "demo", repos := [("code", repo0)] }

/-- An invalid sample configuration: no repo carries `workdir=true`. -/
def badCfg : ScadConfig :=
  { name := "demo", repos := [("code", { path := "/r" }), ("doc", { path := "/d" })] }

/-- A config store carrying `cfg0` under `demo` and `badCfg` under `bad`. -/
def store0 : String → Option ScadConfig :=
  fun n => if n = "demo" then some cfg0 else if n = "bad" then some badCfg else none

/-- A registry in which every name is taken by a regular (non-symlink)
file. -/
def store1 : String → Option StoreEntry :=
  fun _ => some { isSymlink := false, target := "" }

/-- A git world in which the sample repo already has the branch that
`generate_branch_name "demo" "t1" "Mar01" "1400"` produces. -/
def world0 : String → List String :=
  fun p => if p = "/r" then ["scad-demo-t1-Mar01-1400"] else []

/-- A Docker world holding one exited managed container whose run directory
is gone, and the image it runs. -/
def dockerState0 : DockerState :=
  { containers := [{ name := "scad-r1", status := "exited", imageId := "img1", managed := true }],
    runDirs := [],
    images := [{ id := "img1", tags := ["scad-demo"] }] }

/-- An empty `~/.scad`: no run directories, no event logs. -/
def fs0 : ScadFS :=
  { runDirs := [], events := fun _ => none }

/-- A run ID for which neither the container nor the run directory nor the
event log exists. -/
def absentRun : RunState :=
  { containerExists := false, runDirExists := false, eventsLogExists := false }

/-- A run ID for which only the container exists. -/
def containerOnlyRun : RunState :=
  { containerExists := true, runDirExists := false, eventsLogExists := false }

/-! ## Theorems -/

/-! ### C8 — `gc` without `--force` modifies nothing -/

/-- C8: `gc(force=false)` removes no container, no run directory, and no
image: the resulting state is exactly the initial state; only the finding
set is computed for reporting. -/
theorem gc_dry_run_is_pure (s : DockerState) : (gc false s).2 = s := rfl

/-! ### C3 — `session clean` on a fully-absent run ID -/

/-- C3 counterexample: for a run ID with no container and no run directory,
`session clean [runId]` does not exit 0 — `validate_run_id` raises
`ClickException("No session found")` first, and click exits with code 1
(the repository's own test `test_clean_invalid_run_id` asserts this
nonzero exit). -/
theorem session_clean_missing_run_fails :
    (session_clean absentRun).1 ≠ 0 ∧ (session_clean absentRun).1 = 1 := by
  decide

/-- C3 (amended): whenever the container or the run directory exists (so
`validate_run_id` passes), `session clean [runId]` exits 0 and removes
everything, tolerating whichever of the container, the run directory, and
the event log is missing; when both the container and the directory are
missing the command instead fails with "No session found". -/
theorem session_clean_tolerates_partial_absence (st : RunState)
    (h : st.containerExists = true ∨ st.runDirExists = true) :
    (session_clean st).1 = 0 ∧ (session_clean st).2 = absentRun := by
  obtain ⟨c, r, e⟩ := st
  cases c <;> cases r <;> cases e <;>
    simp_all [session_clean, validate_run_id, clean_run, absentRun]

/-- C3 witness: a run with only a container (directory and event log
missing) is cleaned with exit code 0. -/
theorem session_clean_tolerates_partial_absence_witness :
    (containerOnlyRun.containerExists = true ∨ containerOnlyRun.runDirExists = true) ∧
    (session_clean containerOnlyRun).1 = 0 ∧ (session_clean containerOnlyRun).2 = absentRun :=
  ⟨Or.inl rfl, session_clean_tolerates_partial_absence containerOnlyRun (Or.inl rfl)⟩

/-! ### C6 — step order within `session start` -/

/-- C6 counterexample: with a valid config, a colliding user branch, and
invalid credentials, the executed steps are `[load, resolveBranch]` — branch
resolution ran although the credentials check never did, so the claimed
order (load, credsCheck, resolveBranch, ...) is violated. -/
theorem session_start_claimed_order_fails :
    ((session_start_steps
        { configOk := true, branchOk := false, credsValid := false,
          buildOk := true, clonesOk := true, runOk := true }).1.isPrefixOf
      claimedStartOrder) = false ∧
    (session_start_steps
        { configOk := true, branchOk := false, credsValid := false,
          buildOk := true, clonesOk := true, runOk := true }).1 =
      [.load, .resolveBranch] := by
  decide

/-- C6 (amended): within every `session start` invocation the steps execute
in the order config load, branch resolution, credentials check, image
build, clone creation, container launch, start-event append (the code
resolves the branch before checking credentials); if any step fails, no
subsequent step executes — every trace is a prefix of that order, and the
full order runs exactly on success. -/
theorem session_start_step_order (w : StartWorld) :
    ((session_start_steps w).1.isPrefixOf codeStartOrder) = true ∧
    ((session_start_steps w).2 = true ↔ (session_start_steps w).1 = codeStartOrder) := by
  obtain ⟨a, b, c, d, e, f⟩ := w
  cases a <;> cases b <;> cases c <;> cases d <;> cases e <;> cases f <;> decide

/-! ### C9 — exit codes of config-store failures -/

/-- C9 counterexample: `config remove` on an absent name, `config new` on a
taken name, and `config add` on a taken name all exit with code 1, not 2. -/
theorem config_store_failures_do_not_exit_2 :
    config_remove (fun _ => false) "demo" ≠ 2 ∧
    config_new (fun _ => true) "demo" ≠ 2 ∧
    config_add store1 (some cfg0) "/some/path" ≠ 2 := by
  decide

/-- C9 (amended): `config remove` on a name not present in the store,
and `config new` / `config add` on a name already taken, each terminate the
CLI with exit code 1; exit code 2 is reserved for invalid or unparseable
configs (and missing configs in `view`/`edit`/`load`). -/
theorem config_store_failures_exit_1 (storeB : String → Bool) (name : String)
    (store : String → Option StoreEntry) (raw : ScadConfig) (path : String)
    (entry : StoreEntry) :
    (storeB name = false → config_remove storeB name = 1) ∧
    (storeB name = true → config_new storeB name = 1) ∧
    (workdirCount raw.repos = 1 → store raw.name = some entry →
      (entry.isSymlink && (entry.target == path)) = false →
      config_add store (some raw) path = 1) := by
  refine ⟨fun h => ?_, fun h => ?_, fun h1 h2 h3 => ?_⟩
  · simp [config_remove, h]
  · simp [config_new, h]
  · simp [config_add, validate_workdir, h1, h2, h3]

/-- C9 witness: concrete instances of all three exit-1 paths. -/
theorem config_store_failures_exit_1_witness :
    ((fun _ => false : String → Bool) "demo" = false ∧
      config_remove (fun _ => false) "demo" = 1) ∧
    ((fun _ => true : String → Bool) "demo" = true ∧
      config_new (fun _ => true) "demo" = 1) ∧
    (workdirCount cfg0.repos = 1 ∧
      config_add store1 (some cfg0) "/some/path" = 1) :=
  ⟨⟨rfl, (config_store_failures_exit_1 (fun _ => false) "demo" store1 cfg0 "/some/path"
      { isSymlink := false, target := "" }).1 rfl⟩,
    ⟨rfl, (config_store_failures_exit_1 (fun _ => true) "demo" store1 cfg0 "/some/path"
      { isSymlink := false, target := "" }).2.1 rfl⟩,
    ⟨by decide, (config_store_failures_exit_1 (fun _ => false) "demo" store1 cfg0 "/some/path"
      { isSymlink := false, target := "" }).2.2 (by decide) rfl rfl⟩⟩

/-! ### C1 — workdir uniqueness on load and registration -/

/-- C1: every configuration accepted by `load_config` has exactly one repo
with `workdir=true`; loading a stored configuration whose workdir count is
not one fails with the validation error; and registration (`config add`)
runs the same pydantic validation, exiting 2 on such a configuration. -/
theorem load_config_workdir_invariant (store : String → Option ScadConfig) (name : String) :
    (∀ cfg, load_config store name = .ok cfg → workdirCount cfg.repos = 1) ∧
    (∀ raw, store name = some raw → workdirCount raw.repos ≠ 1 →
      load_config store name = .error .invalid) ∧
    (∀ (st : String → Option StoreEntry) (raw : ScadConfig) (path : String),
      workdirCount raw.repos ≠ 1 → config_add st (some raw) path = 2) := by
  refine ⟨fun cfg h => ?_, fun raw hs hn => ?_, fun st raw path hn => ?_⟩
  · cases hs : store name with
    | none => simp [load_config, hs] at h
    | some raw =>
      simp only [load_config, hs, validate_workdir] at h
      by_cases hc : workdirCount raw.repos = 1
      · rw [if_pos hc] at h
        obtain rfl : raw = cfg := by simpa using h
        exact hc
      · rw [if_neg hc] at h
        exact absurd h (by simp)
  · simp [load_config, hs, validate_workdir, hn]
  · simp [config_add, validate_workdir, hn]

/-- C1 witness: `cfg0` loads and has workdir count one; `badCfg` (workdir
count zero) is rejected by `load_config` and by `config add`. -/
theorem load_config_workdir_invariant_witness :
    (load_config store0 "demo" = .ok cfg0 ∧ workdirCount cfg0.repos = 1) ∧
    (store0 "bad" = some badCfg ∧ workdirCount badCfg.repos ≠ 1 ∧
      load_config store0 "bad" = .error .invalid) ∧
    (workdirCount badCfg.repos ≠ 1 ∧ config_add store1 (some badCfg) "/p" = 2) :=
  ⟨⟨rfl, (load_config_workdir_invariant store0 "demo").1 cfg0 rfl⟩,
    ⟨rfl, by decide,
      (load_config_workdir_invariant store0 "bad").2.1 badCfg rfl (by decide)⟩,
    ⟨by decide,
      (load_config_workdir_invariant store0 "bad").2.2 store1 badCfg "/p" (by decide)⟩⟩

/-! ### C5 — `check_claude_auth` on arbitrary credential files -/

/-- C5 counterexample: on the valid JSON document `5` (a non-dict),
`data["claudeAiOauth"]` raises `TypeError`, which the
`except (json.JSONDecodeError, KeyError)` clause does not catch — so
`check()` throws instead of returning a pair. -/
theorem check_claude_auth_throws_on_nondict :
    check_claude_auth (.json (.num 5)) 0 = .error .typeError ∧
    (check_claude_auth (.json (.num 5)) 0).isOk = false :=
  ⟨rfl, rfl⟩

/-- C5 (amended): `check()` returns `(false, 0)` when the credentials file
is missing, is not valid JSON, or the dict path `claudeAiOauth.expiresAt`
stops at a missing key, and returns a pair without throwing whenever that
path exists with a numeric value; but when an intermediate value has the
wrong type (a non-dict to subscript, or a non-numeric `expiresAt`), it
raises an uncaught `TypeError`. -/
theorem check_claude_auth_total_on_expected_shapes (f : CredsFile) (now : ℚ) :
    (creds_path_missing f = true → check_claude_auth f now = .ok (false, 0)) ∧
    (creds_path_numeric f = true → (check_claude_auth f now).isOk = true) := by
  constructor
  · cases f with
    | absent => intro _; rfl
    | notJson => intro _; rfl
    | json v =>
      cases v with
      | obj kvs =>
        cases hj : jLookup kvs "claudeAiOauth" with
        | none => intro _; simp [check_claude_auth, hj]
        | some v1 =>
          cases v1 with
          | obj kvs2 =>
            cases hj2 : jLookup kvs2 "expiresAt" with
            | none => intro _; simp [check_claude_auth, hj, hj2]
            | some v2 => intro h; simp [creds_path_missing, hj, hj2] at h
          | null => intro h; simp [creds_path_missing, hj] at h
          | bool b => intro h; simp [creds_path_missing, hj] at h
          | num q => intro h; simp [creds_path_missing, hj] at h
          | str s => intro h; simp [creds_path_missing, hj] at h
          | arr xs => intro h; simp [creds_path_missing, hj] at h
      | null => intro h; simp [creds_path_missing] at h
      | bool b => intro h; simp [creds_path_missing] at h
      | num q => intro h; simp [creds_path_missing] at h
      | str s => intro h; simp [creds_path_missing] at h
      | arr xs => intro h; simp [creds_path_missing] at h
  · cases f with
    | absent => intro h; simp [creds_path_numeric] at h
    | notJson => intro h; simp [creds_path_numeric] at h
    | json v =>
      cases v with
      | obj kvs =>
        cases hj : jLookup kvs "claudeAiOauth" with
        | none => intro h; simp [creds_path_numeric, hj] at h
        | some v1 =>
          cases v1 with
          | obj kvs2 =>
            cases hj2 : jLookup kvs2 "expiresAt" with
            | none => intro h; simp [creds_path_numeric, hj, hj2] at h
            | some v2 =>
              cases v2 with
              | num q => intro _; simp [check_claude_auth, hj, hj2, Except.isOk, Except.toBool]
              | bool b => intro _; simp [check_claude_auth, hj, hj2, Except.isOk, Except.toBool]
              | null => intro h; simp [creds_path_numeric, hj, hj2] at h
              | str s => intro h; simp [creds_path_numeric, hj, hj2] at h
              | arr xs => intro h; simp [creds_path_numeric, hj, hj2] at h
              | obj kvs3 => intro h; simp [creds_path_numeric, hj, hj2] at h
          | null => intro h; simp [creds_path_numeric, hj] at h
          | bool b => intro h; simp [creds_path_numeric, hj] at h
          | num q => intro h; simp [creds_path_numeric, hj] at h
          | str s => intro h; simp [creds_path_numeric, hj] at h
          | arr xs => intro h; simp [creds_path_numeric, hj] at h
      | null => intro h; simp [creds_path_numeric] at h
      | bool b => intro h; simp [creds_path_numeric] at h
      | num q => intro h; simp [creds_path_numeric] at h
      | str s => intro h; simp [creds_path_numeric] at h
      | arr xs => intro h; simp [creds_path_numeric] at h

/-- C5 witness: a missing credentials file yields `(false, 0)`. -/
theorem check_claude_auth_total_on_expected_shapes_witness :
    creds_path_missing .absent = true ∧ check_claude_auth .absent 0 = .ok (false, 0) :=
  ⟨rfl, (check_claude_auth_total_on_expected_shapes .absent 0).1 rfl⟩

/-! ### Helper lemmas: strings, words, lines, decimal suffixes -/

/-- Strings with equal character data are equal. -/
theorem string_eq_of_data (a b : String) (h : a.data = b.data) : a = b :=
  congrArg String.mk h

/-- A non-empty string has non-empty data. -/
theorem data_ne_nil_of_ne_empty (s : String) (h : s ≠ "") : s.data ≠ [] :=
  fun hd => h (string_eq_of_data s "" hd)

/-- Python `split()` of a single whitespace-free non-empty word. -/
theorem pyWordsData_single (w : List Char) (hw : ∀ c ∈ w, c.isWhitespace = false)
    (hne : w ≠ []) : pyWordsData w = [w] := by
  unfold pyWordsData
  rw [List.splitOnP_eq_single _ w (by intro x hx; simp [hw x hx])]
  simp [hne]

/-- Python `split()` peels a leading whitespace-free non-empty word at a
space. -/
theorem pyWordsData_cons_word (w rest : List Char) (hw : ∀ c ∈ w, c.isWhitespace = false)
    (hne : w ≠ []) : pyWordsData (w ++ ' ' :: rest) = w :: pyWordsData rest := by
  unfold pyWordsData
  rw [List.splitOnP_first _ w (by intro x hx; simp [hw x hx]) ' ' (by decide) rest]
  simp [List.filter_cons, hne]

/-- Splitting the content made of newline-free lines recovers the lines. -/
theorem splitLines_joined : ∀ (L : List (List Char)), (∀ l ∈ L, '\n' ∉ l) →
    splitLines (joinedLines L) = L := by
  intro L
  induction L with
  | nil => intro _; rfl
  | cons l L ih =>
    intro h
    have hl : ∀ x ∈ l, ¬((x == '\n') = true) := by
      intro x hx
      simp only [beq_iff_eq]
      intro hEq
      exact h l (List.mem_cons_self l L) (hEq ▸ hx)
    have hjoin : joinedLines (l :: L) = l ++ '\n' :: joinedLines L := by
      simp [joinedLines, List.append_assoc]
    unfold splitLines
    rw [hjoin, List.splitOnP_first _ l hl '\n' (by decide) (joinedLines L),
      List.dropLast_cons_of_ne_nil (List.splitOnP_ne_nil _ _)]
    exact congrArg (List.cons l) (ih (fun l' hl' => h l' (List.mem_cons_of_mem _ hl')))

/-- `startswith` holds on an extension of the tested string. -/
theorem pyStartsWith_same (p s : String) : pyStartsWith p (p ++ s) = true := by
  unfold pyStartsWith
  rw [String.data_append, List.take_left]
  simp

/-- A `branch=` token never passes the `config=` test. -/
theorem pyStartsWith_config_of_branch (b : String) :
    pyStartsWith "config=" ("branch=" ++ b) = false := by
  unfold pyStartsWith
  rw [String.data_append,
    show ("config=" : String).data.length = ("branch=" : String).data.length from rfl,
    List.take_left]
  decide

/-- `p.split("=", 1)[1]` on a `config=`-token. -/
theorem afterFirstChar_config (s : String) : afterFirstChar '=' ("config=" ++ s) = s := by
  unfold afterFirstChar
  rw [String.data_append, show ("config=" : String).data = ['c', 'o', 'n', 'f', 'i', 'g', '='] from rfl]
  simp [List.dropWhile_cons]

/-- `p.split("=", 1)[1]` on a `branch=`-token. -/
theorem afterFirstChar_branch (s : String) : afterFirstChar '=' ("branch=" ++ s) = s := by
  unfold afterFirstChar
  rw [String.data_append, show ("branch=" : String).data = ['b', 'r', 'a', 'n', 'c', 'h', '='] from rfl]
  simp [List.dropWhile_cons]

/-- Decimal digits decode to the rendered number. -/
theorem valLE_natDecAux : ∀ fuel n, n ≤ fuel → valLE (natDecAux fuel n) = n := by
  intro fuel
  induction fuel with
  | zero =>
    intro n hn
    interval_cases n
    rfl
  | succ fuel ih =>
    intro n hn
    by_cases h0 : n = 0
    · subst h0; simp [natDecAux, valLE]
    · simp only [natDecAux, if_neg h0, valLE]
      have hdig : (Char.ofNat (48 + n % 10)).toNat = 48 + n % 10 := by
        have hr : n % 10 < 10 := Nat.mod_lt _ (by omega)
        set r := n % 10 with hrdef
        interval_cases r <;> decide
      rw [hdig, ih (n / 10) (by omega)]
      omega

/-- `natDec` decodes back to its argument. -/
theorem natDec_val (n : Nat) : valLE (natDec n).data.reverse = n := by
  by_cases h0 : n = 0
  · subst h0; decide
  · unfold natDec
    rw [if_neg h0,
      show (String.mk (natDecAux n n).reverse).data = (natDecAux n n).reverse from rfl,
      List.reverse_reverse]
    exact valLE_natDecAux n n le_rfl

/-- Decimal rendering is injective. -/
theorem natDec_inj (a b : Nat) (h : natDec a = natDec b) : a = b := by
  have h2 := congrArg (fun s => valLE s.data.reverse) h
  simpa [natDec_val] using h2

/-- The digit list of a positive number is non-empty. -/
theorem natDecAux_ne_nil (fuel n : Nat) (h1 : 1 ≤ n) (h2 : n ≤ fuel) :
    natDecAux fuel n ≠ [] := by
  cases fuel with
  | zero => omega
  | succ fuel =>
    simp only [natDecAux, if_neg (by omega : ¬ n = 0)]
    exact List.cons_ne_nil _ _

/-- Decimal renderings are never the empty string. -/
theorem natDec_ne_empty (n : Nat) : natDec n ≠ "" := by
  by_cases h0 : n = 0
  · subst h0; decide
  · unfold natDec
    rw [if_neg h0]
    intro h
    have hdata : (natDecAux n n).reverse = [] := congrArg String.data h
    rw [List.reverse_eq_nil_iff] at hdata
    exact natDecAux_ne_nil n n (by omega) le_rfl hdata

/-- The candidate sequence of the collision loop is injective. -/
theorem branchCandidate_inj (base : String) :
    ∀ j k, branchCandidate base j = branchCandidate base k → j = k := by
  have hlen : ∀ m, (natDec m).data.length ≠ 0 := by
    intro m hz
    exact data_ne_nil_of_ne_empty _ (natDec_ne_empty m) (List.length_eq_zero.mp hz)
  intro j k h
  match j, k with
  | 0, 0 => rfl
  | 0, k + 1 =>
    exfalso
    have hd := congrArg (fun s => s.data.length) h
    simp only [branchCandidate, String.data_append, List.length_append] at hd
    have := hlen (k + 2)
    omega
  | j + 1, 0 =>
    exfalso
    have hd := congrArg (fun s => s.data.length) h
    simp only [branchCandidate, String.data_append, List.length_append] at hd
    have := hlen (j + 2)
    omega
  | j + 1, k + 1 =>
    have hd := congrArg String.data h
    simp only [branchCandidate, String.data_append, List.append_assoc] at hd
    have hd2 := List.append_cancel_left (List.append_cancel_left hd)
    have := natDec_inj (j + 2) (k + 2) (string_eq_of_data _ _ hd2)
    omega

/-- Pigeonhole: among the first `pool.length + 1` candidates, one is not in
`pool`. -/
theorem exists_free_candidate (pool : List String) (base : String) :
    ∃ j, j ≤ pool.length ∧ branchCandidate base j ∉ pool := by
  by_contra hcon
  push_neg at hcon
  have hmaps : ∀ j ∈ Finset.range (pool.length + 1), branchCandidate base j ∈ pool.toFinset := by
    intro j hj
    rw [List.mem_toFinset]
    exact hcon j (Nat.lt_succ_iff.mp (Finset.mem_range.mp hj))
  have hinj : Set.InjOn (branchCandidate base) (Finset.range (pool.length + 1)) :=
    fun a _ b _ hab => branchCandidate_inj base a b hab
  have hcard := Finset.card_le_card_of_injOn (branchCandidate base) hmaps hinj
  rw [Finset.card_range] at hcard
  have hle := pool.toFinset_card_le
  omega

/-- The collision test holds exactly on the participating branch pool. -/
theorem branch_collides_iff (world : String → List String) (cfg : ScadConfig) (b : String) :
    branch_collides world cfg b = true ↔ b ∈ participating_branches world cfg := by
  unfold branch_collides participating_branches
  simp only [List.any_eq_true, Bool.and_eq_true, decide_eq_true_eq, List.mem_flatten,
    List.mem_map, List.mem_filter]
  constructor
  · rintro ⟨kv, hmem, hwt, hb⟩
    exact ⟨world kv.2.path, ⟨kv, ⟨hmem, hwt⟩, rfl⟩, hb⟩
  · rintro ⟨l, ⟨kv, ⟨hmem, hwt⟩, rfl⟩, hb⟩
    exact ⟨kv, hmem, hwt, hb⟩

/-- The fuelled collision loop returns a collision-free name as soon as one
of the candidates within its fuel is collision-free. -/
theorem searchFreeBranch_free (world : String → List String) (cfg : ScadConfig) (base : String) :
    ∀ fuel k,
      (∃ j, j ≤ fuel ∧ branch_collides world cfg (branchCandidate base (k + j)) = false) →
      branch_collides world cfg (searchFreeBranch world cfg base fuel k) = false := by
  intro fuel
  induction fuel with
  | zero =>
    intro k h
    obtain ⟨j, hj, hfree⟩ := h
    interval_cases j
    simpa [searchFreeBranch] using hfree
  | succ fuel ih =>
    intro k h
    obtain ⟨j, hj, hfree⟩ := h
    simp only [searchFreeBranch]
    by_cases hc : branch_collides world cfg (branchCandidate base k) = true
    · rw [if_pos hc]
      apply ih
      cases j with
      | zero =>
        rw [Nat.add_zero] at hfree
        rw [hfree] at hc
        exact absurd hc (by simp)
      | succ j =>
        exact ⟨j, by omega, by rw [show k + 1 + j = k + (j + 1) by omega]; exact hfree⟩
    · rw [if_neg hc]
      simpa using hc

/-! ### C2 — auto-generated branches are fresh -/

/-- C2: for every configuration and tag, `resolve_branch(C, None, tag)`
returns a branch name that does not already exist in any participating
(worktree=true) source repo: it starts from the generated
`scad-[config]-[tag]-[MonDD]-[HHMM]` and appends `-2`, `-3`, ... until the
name collides with no participating repo. -/
theorem resolve_branch_auto_fresh (world : String → List String) (cfg : ScadConfig)
    (tag mon hhmm : String) (key : String) (repo : RepoConfig)
    (hmem : (key, repo) ∈ cfg.repos) (hwt : repo.worktree = true) (b : String)
    (hb : resolve_branch world cfg none tag mon hhmm = .ok b) :
    b ∉ world repo.path := by
  have hbdef : b = searchFreeBranch world cfg (generate_branch_name cfg.name tag mon hhmm)
      ((participating_branches world cfg).length + 1) 0 := by
    simpa [resolve_branch] using hb.symm
  obtain ⟨j, hj, hfree⟩ :=
    exists_free_candidate (participating_branches world cfg)
      (generate_branch_name cfg.name tag mon hhmm)
  have hfree' :
      branch_collides world cfg
        (branchCandidate (generate_branch_name cfg.name tag mon hhmm) (0 + j)) = false := by
    rw [Nat.zero_add]
    rw [Bool.eq_false_iff]
    intro ht
    exact hfree ((branch_collides_iff world cfg _).mp ht)
  have hcol : branch_collides world cfg b = false := by
    rw [hbdef]
    exact searchFreeBranch_free world cfg _ _ 0 ⟨j, by omega, hfree'⟩
  intro hbmem
  have hmempool : b ∈ participating_branches world cfg := by
    unfold participating_branches
    rw [List.mem_flatten]
    refine ⟨world repo.path, ?_, hbmem⟩
    rw [List.mem_map]
    exact ⟨(key, repo), List.mem_filter.mpr ⟨hmem, hwt⟩, rfl⟩
  rw [(branch_collides_iff world cfg b).mpr hmempool] at hcol
  exact absurd hcol (by simp)

/-- C2 witness: with the generated base name already present in the sample
repo, resolution returns `...-2`, which is not among the repo's branches. -/
theorem resolve_branch_auto_fresh_witness :
    (("code", repo0) ∈ cfg0.repos ∧ repo0.worktree = true ∧
      resolve_branch world0 cfg0 none "t1" "Mar01" "1400" = .ok "scad-demo-t1-Mar01-1400-2") ∧
    "scad-demo-t1-Mar01-1400-2" ∉ world0 "/r" :=
  ⟨⟨by decide, rfl, rfl⟩,
    resolve_branch_auto_fresh world0 cfg0 "t1" "Mar01" "1400" "code" repo0
      (by decide) rfl "scad-demo-t1-Mar01-1400-2" rfl⟩

/-! ### C10 — `log_event` appends one line and materialises the run dir -/

/-- Joining the data of two strings is string append. -/
theorem mk_append_data (a b : String) : String.mk (a.data ++ b.data) = a ++ b :=
  string_eq_of_data _ _ (String.data_append a b).symm

/-- C10 counterexample: with details containing a newline, `log_event`
appends two lines, not one — `f.write(line + "\n")` does not escape the
embedded newline. -/
theorem log_event_multiline_details :
    splitLines (((log_event fs0 "r" "start" "a\nb" "t").events "r").getD []) ≠
      [(renderEventLine "t" "start" "a\nb").data] ∧
    (splitLines (((log_event fs0 "r" "start" "a\nb" "t").events "r").getD [])).length = 2 := by
  decide

/-- C10 (amended): for every runId, verb, and newline-free details,
`log_event` succeeds even when the run directory does not yet exist: it
creates `runs/[runId]/` and `events.log` if absent and appends exactly one
line `[ts] [verb]` (plus ` [details]` when details is non-empty), leaving
all previously written lines unchanged. -/
theorem log_event_appends_one_line (fs : ScadFS) (runId verb details ts : String)
    (L : List (List Char))
    (hL : (fs.events runId).getD [] = joinedLines L)
    (hnlL : ∀ l ∈ L, '\n' ∉ l)
    (hts : '\n' ∉ ts.data) (hv : '\n' ∉ verb.data) (hd : '\n' ∉ details.data) :
    ((log_event fs runId verb details ts).runDirs.contains runId) = true ∧
    splitLines (((log_event fs runId verb details ts).events runId).getD []) =
      L ++ [(renderEventLine ts verb details).data] := by
  have hline : '\n' ∉ (renderEventLine ts verb details).data := by
    unfold renderEventLine
    by_cases hdet : details = ""
    · rw [if_pos hdet]
      simp only [String.data_append, List.mem_append]
      rintro ((h | h) | h)
      · exact hts h
      · exact absurd h (by decide)
      · exact hv h
    · rw [if_neg hdet]
      simp only [String.data_append, List.mem_append]
      rintro ((((h | h) | h) | h) | h)
      · exact hts h
      · exact absurd h (by decide)
      · exact hv h
      · exact absurd h (by decide)
      · exact hd h
  constructor
  · unfold log_event
    by_cases hc : fs.runDirs.contains runId = true
    · rw [if_pos hc]
      exact hc
    · rw [if_neg hc]
      simp
  · unfold log_event
    simp only [beq_self_eq_true, if_true]
    rw [hL]
    have hjoin : joinedLines L ++ (renderEventLine ts verb details).data ++ ['\n'] =
        joinedLines (L ++ [(renderEventLine ts verb details).data]) := by
      simp [joinedLines, List.append_assoc]
    rw [hjoin]
    refine splitLines_joined _ ?_
    intro l hl
    rcases List.mem_append.mp hl with h | h
    · exact hnlL l h
    · simp only [List.mem_singleton] at h
      subst h
      exact hline

/-- C10 witness: logging a `start` event into an empty state materialises
the run directory and produces a one-line event log. -/
theorem log_event_appends_one_line_witness :
    ((fs0.events "r").getD [] = joinedLines [] ∧
      (∀ l ∈ ([] : List (List Char)), '\n' ∉ l)) ∧
    ((log_event fs0 "r" "start" "" "2026-03-01T14:00").runDirs.contains "r") = true ∧
    splitLines (((log_event fs0 "r" "start" "" "2026-03-01T14:00").events "r").getD []) =
      [] ++ [(renderEventLine "2026-03-01T14:00" "start" "").data] :=
  ⟨⟨rfl, by simp⟩,
    log_event_appends_one_line fs0 "r" "start" "" "2026-03-01T14:00" [] rfl (by simp)
      (by decide) (by decide) (by decide)⟩

/-! ### C7 — config name round-trip through the event log -/

/-- C7 counterexample: a config name containing a space is truncated by the
whitespace tokenisation of `_parse_events_log` — the round-trip returns
`"a"` for the name `"a b"`. -/
theorem config_name_for_run_space_in_name :
    config_name_for_run
      [renderEventLine "2026-03-01T14:00" "start" ("config=" ++ "a b" ++ " branch=" ++ "x")]
      "a b-t1-Mar01-1400" = some "a" ∧
    config_name_for_run
      [renderEventLine "2026-03-01T14:00" "start" ("config=" ++ "a b" ++ " branch=" ++ "x")]
      "a b-t1-Mar01-1400" ≠ some "a b" := by
  decide

/-- C7 (amended): for every run whose `start` event heads its event log,
provided the config name and branch contain no whitespace and the name is
neither empty nor `"?"`, `config_name_for_run` recovers exactly the config
name passed to `start` from the `config=[name]` detail of the event line. -/
theorem config_name_for_run_roundtrip (name branch ts runId : String) (rest : List String)
    (hn : ∀ c ∈ name.data, c.isWhitespace = false)
    (hb : ∀ c ∈ branch.data, c.isWhitespace = false)
    (hts : ∀ c ∈ ts.data, c.isWhitespace = false)
    (htsne : ts ≠ "") (hne : name ≠ "") (hq : name ≠ "?") :
    config_name_for_run
      (renderEventLine ts "start" ("config=" ++ name ++ " branch=" ++ branch) :: rest) runId =
      some name := by
  have hdet : ("config=" ++ name ++ " branch=" ++ branch) ≠ "" := by
    intro h
    have hlen := congrArg (fun s => s.data.length) h
    simp [String.data_append] at hlen
  have hlinedata :
      (renderEventLine ts "start" ("config=" ++ name ++ " branch=" ++ branch)).data =
        ts.data ++ ' ' :: ("start".data ++ ' ' ::
          (("config=".data ++ name.data) ++ ' ' :: ("branch=".data ++ branch.data))) := by
    unfold renderEventLine
    rw [if_neg hdet]
    simp [String.data_append, List.append_assoc]
  have hconfws : ∀ c ∈ ("config=" : String).data, c.isWhitespace = false := by decide
  have hbranchws : ∀ c ∈ ("branch=" : String).data, c.isWhitespace = false := by decide
  have hcfgws : ∀ c ∈ ("config=" : String).data ++ name.data, c.isWhitespace = false := by
    intro c hc
    rcases List.mem_append.mp hc with h | h
    · exact hconfws c h
    · exact hn c h
  have hbrws : ∀ c ∈ ("branch=" : String).data ++ branch.data, c.isWhitespace = false := by
    intro c hc
    rcases List.mem_append.mp hc with h | h
    · exact hbranchws c h
    · exact hb c h
  have hwords :
      pyWordsData (renderEventLine ts "start" ("config=" ++ name ++ " branch=" ++ branch)).data =
        [ts.data, "start".data, "config=".data ++ name.data, "branch=".data ++ branch.data] := by
    rw [hlinedata]
    rw [pyWordsData_cons_word ts.data _ hts (data_ne_nil_of_ne_empty ts htsne)]
    rw [pyWordsData_cons_word "start".data _ (by decide) (by decide)]
    rw [pyWordsData_cons_word ("config=".data ++ name.data) _ hcfgws (by simp)]
    rw [pyWordsData_single ("branch=".data ++ branch.data) hbrws (by simp)]
  have hparts :
      pyWords (renderEventLine ts "start" ("config=" ++ name ++ " branch=" ++ branch)) =
        [ts, "start", "config=" ++ name, "branch=" ++ branch] := by
    unfold pyWords
    rw [hwords]
    simp only [List.map_cons, List.map_nil, mk_append_data]
    rfl
  have hscan :
      scanDetailTokens { config := "?", branch := "?", started := ts }
        ["config=" ++ name, "branch=" ++ branch] =
        { config := name, branch := branch, started := ts } := by
    unfold scanDetailTokens
    simp [pyStartsWith_same, pyStartsWith_config_of_branch, afterFirstChar_config,
      afterFirstChar_branch]
  unfold config_name_for_run
  rw [show parse_events_log
        (renderEventLine ts "start" ("config=" ++ name ++ " branch=" ++ branch) :: rest) =
      { config := name, branch := branch, started := ts } from by
    simp only [parse_events_log, hparts]
    simpa using hscan]
  rw [if_pos ⟨hne, hq⟩]

/-- C7 witness: a whitespace-free name round-trips. -/
theorem config_name_for_run_roundtrip_witness :
    ((∀ c ∈ ("demo" : String).data, c.isWhitespace = false) ∧
      ("2026-03-01T14:00" : String) ≠ "" ∧ ("demo" : String) ≠ "" ∧
      ("demo" : String) ≠ "?") ∧
    config_name_for_run
      [renderEventLine "2026-03-01T14:00" "start"
        ("config=" ++ "demo" ++ " branch=" ++ "scad-demo-t1-Mar01-1400")]
      "demo-t1-Mar01-1400" = some "demo" :=
  ⟨⟨by decide, by decide, by decide, by decide⟩,
    config_name_for_run_roundtrip "demo" "scad-demo-t1-Mar01-1400" "2026-03-01T14:00"
      "demo-t1-Mar01-1400" [] (by decide) (by decide) (by decide)
      (by decide) (by decide) (by decide)⟩

/-! ### C4 — `gc --force` run twice -/

/-- `removeprefix` undoes prepending `scad-`. -/
theorem removeScadPfx_append (r : String) : removeScadPfx ("scad-" ++ r) = r := by
  unfold removeScadPfx
  rw [if_pos (pyStartsWith_same "scad-" r)]
  apply string_eq_of_data
  rw [show (String.mk (("scad-" ++ r).data.drop 5)).data = ("scad-" ++ r).data.drop 5 from rfl,
    String.data_append, show (5 : Nat) = ("scad-" : String).data.length from rfl]
  exact List.drop_left _ _

/-- A container is not an orphan exactly when its run directory exists and
it is not exited. -/
theorem is_orphan_eq_false_iff (dirs : List RunDirEntry) (c : DContainer) :
    is_orphan dirs c = false ↔
      run_dir_exists dirs (removeScadPfx c.name) = true ∧ (c.status == "exited") = false := by
  unfold is_orphan
  cases h1 : run_dir_exists dirs (removeScadPfx c.name) <;>
    cases h2 : c.status == "exited" <;> simp

/-- A run directory is not dead exactly when its container exists or it has
worktrees. -/
theorem is_dead_dir_eq_false_iff (cs : List DContainer) (d : RunDirEntry) :
    is_dead_dir cs d = false ↔
      container_exists cs d.runId = true ∨ d.hasWorktrees = true := by
  unfold is_dead_dir
  cases h1 : container_exists cs d.runId <;> cases h2 : d.hasWorktrees <;> simp

/-- Characterisation of `run_dir_exists`. -/
theorem run_dir_exists_iff (dirs : List RunDirEntry) (rid : String) :
    run_dir_exists dirs rid = true ↔ ∃ d ∈ dirs, d.runId = rid := by
  unfold run_dir_exists
  simp [List.any_eq_true]

/-- Characterisation of `_container_exists`. -/
theorem container_exists_iff (cs : List DContainer) (rid : String) :
    container_exists cs rid = true ↔ ∃ c ∈ cs, c.name = "scad-" ++ rid := by
  unfold container_exists
  simp [List.any_eq_true]

/-- C4 counterexample: starting from one exited managed container whose run
directory is gone, the first `gc --force` removes the container but counts
its image as active; the second run then reports (and removes) that image —
its findings are not all empty, and it changes the state again. -/
theorem gc_force_twice_finds_unused_image :
    (gc true (gc true dockerState0).2).1.unused_images ≠ [] ∧
    (gc true (gc true dockerState0).2).1.unused_images =
      [{ id := "img1", tags := ["scad-demo"] }] ∧
    (gc true (gc true dockerState0).2).2 ≠ (gc true dockerState0).2 := by
  decide

/-- C4 (amended): provided every managed container is named `scad-[runId]`
(as all containers created by the system are), a second `gc(force=true)`
finds no orphaned containers and no dead run directories; its unused-images
finding, however, may be non-empty (images whose only containers were
removed in the first pass), so the two passes are not equivalent to one. -/
theorem gc_force_second_pass_no_orphans (s : DockerState)
    (hnames : ∀ c ∈ s.containers, c.managed = true → ∃ r, c.name = "scad-" ++ r) :
    (gc true (gc true s).2).1.orphaned_containers = [] ∧
    (gc true (gc true s).2).1.dead_run_dirs = [] := by
  set C1 := s.containers.filter (fun c => !(c.managed && is_orphan s.runDirs c)) with hC1
  set D1 := s.runDirs.filter (fun d => !(is_dead_dir C1 d)) with hD1
  set C2 := C1.filter (fun c => !(c.managed && is_orphan D1 c)) with hC2
  have hsurv : ∀ c ∈ C1, c.managed = true → is_orphan D1 c = false := by
    intro c hc hm
    have hcs : c ∈ s.containers := (List.mem_filter.mp hc).1
    have hpred := (List.mem_filter.mp hc).2
    rw [hm] at hpred
    have horph : is_orphan s.runDirs c = false := by simpa using hpred
    obtain ⟨hdir, hstat⟩ := (is_orphan_eq_false_iff s.runDirs c).mp horph
    obtain ⟨r, hr⟩ := hnames c hcs hm
    rw [hr, removeScadPfx_append] at hdir
    obtain ⟨d, hdmem, hdid⟩ := (run_dir_exists_iff s.runDirs r).mp hdir
    have hdD1 : d ∈ D1 := by
      rw [hD1]
      refine List.mem_filter.mpr ⟨hdmem, ?_⟩
      have hnd : is_dead_dir C1 d = false := by
        rw [is_dead_dir_eq_false_iff]
        left
        rw [container_exists_iff]
        exact ⟨c, hc, by rw [hr, hdid]⟩
      simp [hnd]
    rw [is_orphan_eq_false_iff]
    refine ⟨?_, hstat⟩
    rw [hr, removeScadPfx_append, run_dir_exists_iff]
    exact ⟨d, hdD1, hdid⟩
  constructor
  · have hshape : (gc true (gc true s).2).1.orphaned_containers =
        (C1.filter (fun c => c.managed)).filter (is_orphan D1) := rfl
    rw [hshape, List.filter_eq_nil_iff]
    intro c hc
    obtain ⟨hc1, hm⟩ := List.mem_filter.mp hc
    simp [hsurv c hc1 hm]
  · have hshape : (gc true (gc true s).2).1.dead_run_dirs =
        D1.filter (is_dead_dir C2) := rfl
    rw [hshape, List.filter_eq_nil_iff]
    intro d hd
    obtain ⟨hdmem, hdpred⟩ := List.mem_filter.mp hd
    have hnotdead : is_dead_dir C1 d = false := by simpa using hdpred
    rcases (is_dead_dir_eq_false_iff C1 d).mp hnotdead with hce | hwt
    · obtain ⟨c, hcC1, hcname⟩ := (container_exists_iff C1 d.runId).mp hce
      have hcC2 : c ∈ C2 := by
        rw [hC2]
        refine List.mem_filter.mpr ⟨hcC1, ?_⟩
        by_cases hm : c.managed = true
        · simp [hm, hsurv c hcC1 hm]
        · have hmf : c.managed = false := Bool.eq_false_iff.mpr hm
          simp [hmf]
      have hnd : is_dead_dir C2 d = false := by
        rw [is_dead_dir_eq_false_iff]
        left
        rw [container_exists_iff]
        exact ⟨c, hcC2, hcname⟩
      simp [hnd]
    · simp [(is_dead_dir_eq_false_iff C2 d).mpr (Or.inr hwt)]

/-- C4 witness: the sample Docker world satisfies the naming invariant, and
the second pass indeed reports no orphaned containers and no dead run
dirs. -/
theorem gc_force_second_pass_no_orphans_witness :
    (∀ c ∈ dockerState0.containers, c.managed = true → ∃ r, c.name = "scad-" ++ r) ∧
    (gc true (gc true dockerState0).2).1.orphaned_containers = [] ∧
    (gc true (gc true dockerState0).2).1.dead_run_dirs = [] := by
  have hnames : ∀ c ∈ dockerState0.containers, c.managed = true → ∃ r, c.name = "scad-" ++ r := by
    intro c hc _
    have : c = { name := "scad-r1", status := "exited", imageId := "img1", managed := true } := by
      simpa [dockerState0] using hc
    exact ⟨"r1", by rw [this]; decide⟩
  exact ⟨hnames, gc_force_second_pass_no_orphans dockerState0 hnames⟩

end Scad
